import Mathlib

/-!
# Verification of `antec_display_service.py`

Shallow embedding of the Antec FLUX Pro display service and proofs about it.

Python floats are modelled as exact rationals (`ℚ`); every concrete input used
below is exactly representable as a binary double, so the modelled arithmetic
agrees with the source's float arithmetic at those points.  Python's `//`, `%`
and `int()` are modelled by `pyFloorDiv`, `pyMod` and `pyInt` with Python's
semantics (floor division, mod with the divisor's sign, truncation toward
zero).  `f"{n:02x}"` formatting and `bytes.fromhex` are modelled character by
character (`format02x`, `fromhex`); a raised `ValueError` is the `none` result.
-/

namespace Antec

/-! ## Definitions -/

/-- Observer levels of the logging interface. -/
inductive LogLevel where
  | debug | info | warning | error | critical
deriving DecidableEq, Repr

/-- Python `int()` on a rational: truncation toward zero. -/
def pyInt (q : ℚ) : ℤ :=
  if 0 ≤ q then ⌊q⌋ else ⌈q⌉

/-- Python `a // b` on floats: floor division (result is again a number). -/
def pyFloorDiv (a b : ℚ) : ℚ :=
  (⌊a / b⌋ : ℚ)

/-- Python `a % b` on floats: `a - b * (a // b)`, sign follows the divisor. -/
def pyMod (a b : ℚ) : ℚ :=
  a - b * (⌊a / b⌋ : ℚ)

/-- The inner `encode_temperature` of `generate_payload`:
`integer_part = int(temp // 10)`, `tenths_part = int(temp % 10)`,
`hundredths_part = int((temp * 10) % 10)`. -/
def encode_temperature (temp : ℚ) : ℤ × ℤ × ℤ :=
  let integer_part := pyInt (pyFloorDiv temp 10)
  let tenths_part := pyInt (pyMod temp 10)
  let hundredths_part := pyInt (pyMod (temp * 10) 10)
  (integer_part, tenths_part, hundredths_part)

/-- One character of a formatted hex string: a hex digit or a minus sign. -/
inductive HexChar where
  | digit : Nat → HexChar
  | minus : HexChar
deriving DecidableEq, Repr

/-- Base-16 digits of a natural number, most significant first (fuelled to
keep the definition structurally recursive). -/
def toHexDigitsAux : Nat → Nat → List Nat
  | 0, n => [n % 16]
  | fuel + 1, n => if n < 16 then [n] else toHexDigitsAux fuel (n / 16) ++ [n % 16]

/-- Base-16 digits of a natural number, most significant first. -/
def toHexDigits (n : Nat) : List Nat :=
  toHexDigitsAux n n

/-- Python `f"{n:02x}"`: lower-case hex, zero-padded to total width 2; a
negative number carries a leading `-` (the sign counts toward the width). -/
def format02x (n : ℤ) : List HexChar :=
  if n < 0 then
    HexChar.minus :: (toHexDigits n.natAbs).map HexChar.digit
  else
    let ds := toHexDigits n.toNat
    List.replicate (2 - ds.length) (HexChar.digit 0) ++ ds.map HexChar.digit

/-- Python `bytes.fromhex`: pairs of hex digits become bytes; an odd length or
a non-hex character (such as `-`) raises `ValueError`, modelled as `none`. -/
def fromhex : List HexChar → Option (List Nat)
  | [] => some []
  | HexChar.digit a :: HexChar.digit b :: rest =>
    if a < 16 ∧ b < 16 then (fromhex rest).map (fun l => (16 * a + b) :: l) else none
  | _ => none

/-- The three formatted bytes of one temperature, as the hex characters of
`f"{integer_part:02x}{tenths_part:02x}{hundredths_part:02x}"`. -/
def encode_hex (temp : ℚ) : List HexChar :=
  format02x (encode_temperature temp).1 ++
    format02x (encode_temperature temp).2.1 ++
    format02x (encode_temperature temp).2.2

/-- Hex characters of the fixed header string `"55aa010106"`. -/
def headerHex : List HexChar :=
  [HexChar.digit 5, HexChar.digit 5, HexChar.digit 10, HexChar.digit 10,
   HexChar.digit 0, HexChar.digit 1, HexChar.digit 0, HexChar.digit 1,
   HexChar.digit 0, HexChar.digit 6]

/-- Source `generate_payload(cpu_temp, gpu_temp)`: build the two 6-character hex
encodings, decode them to bytes for the checksum, then decode the full
payload string `"55aa010106" + cpu + gpu + checksum`.  A `ValueError` raised
by `bytes.fromhex` is the `none` result. -/
def generate_payload (cpu_temp gpu_temp : ℚ) : Option (List Nat) :=
  let cpu_encoded := encode_hex cpu_temp
  let gpu_encoded := encode_hex gpu_temp
  match fromhex (cpu_encoded ++ gpu_encoded) with
  | none => none
  | some combined =>
    let checksum := (combined.sum + 7) % 256
    fromhex (headerHex ++ cpu_encoded ++ gpu_encoded ++ format02x (checksum : ℤ))

/-- Python `str.strip()`: drop leading and trailing whitespace. -/
def stripChars (s : List Char) : List Char :=
  ((s.dropWhile Char.isWhitespace).reverse.dropWhile Char.isWhitespace).reverse

/-- Python `s.startswith(p)`. -/
def startsWithL (s p : List Char) : Bool :=
  s.take p.length == p

/-- Python `s.endswith(p)`.  (When `p` is longer than `s` the drop is by 0 and
the comparison fails on unequal lengths, as it should.) -/
def endsWithL (s p : List Char) : Bool :=
  s.drop (s.length - p.length) == p

/-- Python `os.path.join(a, b)` for a relative second component. -/
def pathJoin (a b : List Char) : List Char :=
  a ++ ("/").data ++ b

/-- Python `s.replace(pat, rep)` (all non-overlapping occurrences, scanned
left to right), fuelled by the length of the remaining string so that the
definition is structurally recursive.  The source only ever calls it with the
non-empty patterns `"_label"`/`"_input"`; for an empty pattern this model
returns the string unchanged. -/
def replaceAux (pat rep : List Char) : Nat → List Char → List Char
  | 0, s => s
  | _ + 1, [] => []
  | fuel + 1, c :: rest =>
    if pat ≠ [] ∧ (c :: rest).take pat.length = pat then
      rep ++ replaceAux pat rep fuel (rest.drop (pat.length - 1))
    else
      c :: replaceAux pat rep fuel rest

/-- Python `s.replace(pat, rep)`. -/
def pyReplace (pat rep s : List Char) : List Char :=
  replaceAux pat rep s.length s

/-- Source `read_temperature(path)`: open the file, compute
`float(f.read().strip()) / 1000`, log at debug level and return it; on
`FileNotFoundError` (the path is absent) or any other exception (here: the
content does not parse as a float) log an error and return `0.0`.  The
filesystem is a partial map from paths to raw contents and `pyfloat`
abstracts Python's `float()` parser (`none` = `ValueError`). -/
def read_temperature (pyfloat : List Char → Option ℚ)
    (fs : List Char → Option (List Char)) (path : List Char) : ℚ × List LogLevel :=
  match fs path with
  | none => (0, [LogLevel.error])
  | some content =>
    match pyfloat (stripChars content) with
    | none => (0, [LogLevel.error])
    | some v => (v / 1000, [LogLevel.debug])

/-- A one-file demo filesystem: `t1` holds `" 41000 "`. -/
def demoFs : List Char → Option (List Char) :=
  fun p => if p = ("t1").data then some (" 41000 ").data else none

/-- A demo `float()` parser: it parses exactly the string `41000`. -/
def demoFloat : List Char → Option ℚ :=
  fun s => if s = ("41000").data then some 41000 else none

/-- One directory of the hwmon sensor tree snapshot: its directory name (an
entry of `os.listdir("/sys/class/hwmon")`), the raw content of its `name`
file when that file exists, and the `(filename, raw content)` pairs of
`os.listdir(sensor_path)` in enumeration order. -/
structure HwmonEntry where
  dirname : List Char
  nameContent : Option (List Char)
  files : List (List Char × List Char)

/-- The constant `hwmon_base = "/sys/class/hwmon"`. -/
def hwmonBase : List Char := ("/sys/class/hwmon").data

/-- The filter `temp_file.startswith("temp") and temp_file.endswith("_label")`. -/
def isTempLabel (fname : List Char) : Bool :=
  startsWithL fname (("temp").data) && endsWithL fname (("_label").data)

/-- Source `find_temp_file(sensor_name, label_name)`: walk the hwmon entries in
order; for each entry whose `name` file exists and strips to `sensor_name`,
walk its files in order; on the first `temp*_label` file whose stripped
content equals `label_name`, return `label_path.replace("_label", "_input")`
where `label_path` is the full joined path; otherwise return `None`. -/
def find_temp_file (tree : List HwmonEntry) (sensor_name label_name : List Char) :
    Option (List Char) :=
  tree.findSome? fun e =>
    match e.nameContent with
    | none => none
    | some nc =>
      if stripChars nc = sensor_name then
        e.files.findSome? fun fc =>
          if isTempLabel fc.1 = true ∧ stripChars fc.2 = label_name then
            some (pyReplace (("_label").data) (("_input").data)
              (pathJoin (pathJoin hwmonBase e.dirname) fc.1))
          else none
      else none

/-- A listed file matches: it is a `temp*_label` file whose stripped content
is the requested label. -/
def labelMatchesB (label_name : List Char) (fc : List Char × List Char) : Bool :=
  isTempLabel fc.1 && (stripChars fc.2 == label_name)

/-- A tree entry matches: its `name` file exists and strips to the requested
sensor name, and some listed file matches the label. -/
def entryMatchesB (sensor_name label_name : List Char) (e : HwmonEntry) : Bool :=
  (match e.nameContent with
   | none => false
   | some nc => stripChars nc == sensor_name) && e.files.any (labelMatchesB label_name)

/-- Number of scan positions at which `pat` occurs in `s` (used to state
"occurs exactly once"). -/
def occCount (pat s : List Char) : Nat :=
  ((List.range (s.length + 1)).filter fun i => (s.drop i).take pat.length == pat).length

/-- A driver whose name (`nct6775`) does not match `asusec`. -/
def demoEntryOther : HwmonEntry :=
  ⟨("hwmon0").data, some ("nct6775\n").data,
    [(("temp1_label").data, ("SYSTIN\n").data)]⟩

/-- The `asusec` driver: a `name` file, a non-matching label, the CPU label. -/
def demoEntryAsus : HwmonEntry :=
  ⟨("hwmon1").data, some ("asusec\n").data,
    [(("name").data, ("asusec\n").data),
     (("temp1_label").data, ("Motherboard\n").data),
     (("temp2_label").data, ("CPU\n").data)]⟩

/-- A demo sensor tree with two drivers. -/
def demoTree : List HwmonEntry := [demoEntryOther, demoEntryAsus]

/-- An `asusec` driver living in a directory whose own name contains
`"_label"`. -/
def demoEntryWeird : HwmonEntry :=
  ⟨("hwmon_label0").data, some ("asusec\n").data,
    [(("temp2_label").data, ("CPU\n").data)]⟩

/-- A demo sensor tree whose matching driver directory contains `"_label"`. -/
def demoTreeWeird : List HwmonEntry := [demoEntryWeird]

/-- What `send_to_device` does on one call, viewed from the outside. -/
inductive SendResult where
  | ok | deviceNotFound | endpointMissing | writeFailed | otherError
deriving DecidableEq, Repr

/-- Result of one `send_to_device` call: the outcome, whether a device handle
was acquired (`usb.core.find` returned a device), and whether
`usb.util.dispose_resources` ran before the call returned. -/
structure SendOutcome where
  result : SendResult
  acquired : Bool
  disposed : Bool
deriving DecidableEq, Repr

/-- The USB environment a single `send_to_device` call observes: whether the
device is present, whether a kernel driver holds interface 0, and which of
the successive device operations raise. -/
structure UsbEnv where
  devicePresent : Bool
  kernelDriverActive : Bool
  detachRaises : Bool
  setConfigRaises : Bool
  getConfigRaises : Bool
  hasOutEndpoint : Bool
  writeRaisesUSB : Bool
deriving DecidableEq, Repr

/-- Source `send_to_device(payload)`, branch for branch: device absent → log and
return; detach/configure/get-configuration raising → caught by the outer
`except`, logged, return; no OUT endpoint → log and return (note: without
disposing); `endpoint.write` raising `USBError` → caught by the inner
`except`, logged, then `dispose_resources` runs; success → `dispose_resources`
runs.  `disposed` records whether `usb.util.dispose_resources(device)` was
reached on that path. -/
def send_to_device (env : UsbEnv) (payload : List Nat) : SendOutcome :=
  if env.devicePresent = false then ⟨SendResult.deviceNotFound, false, false⟩
  else if env.kernelDriverActive = true ∧ env.detachRaises = true then
    ⟨SendResult.otherError, true, false⟩
  else if env.setConfigRaises = true then ⟨SendResult.otherError, true, false⟩
  else if env.getConfigRaises = true then ⟨SendResult.otherError, true, false⟩
  else if env.hasOutEndpoint = false then ⟨SendResult.endpointMissing, true, false⟩
  else if env.writeRaisesUSB = true then ⟨SendResult.writeFailed, true, true⟩
  else ⟨SendResult.ok, true, true⟩

/-- A USB environment with the device present but no OUT endpoint. -/
def envEndpointMissing : UsbEnv := ⟨true, false, false, false, false, false, false⟩

/-- A USB environment where only the bulk write raises. -/
def envWriteFails : UsbEnv := ⟨true, false, false, false, false, true, true⟩

/-- A fault-free USB environment. -/
def envClean : UsbEnv := ⟨true, false, false, false, false, true, false⟩

/-- What one loop cycle observes: the sensor filesystem for the two reads and
the USB environment for the send. -/
structure CycleEnv where
  fs : List Char → Option (List Char)
  usb : UsbEnv

/-- What one loop cycle did: the two temperatures read, the payload built (if
`generate_payload` did not raise), the send outcome (if a send was attempted),
the cycle counter afterwards, and the sleep applied (0.5 s on the normal path,
5 s on the `except Exception` path, where the counter is not incremented). -/
structure CycleOut where
  cpu_temp : ℚ
  gpu_temp : ℚ
  payload : Option (List Nat)
  send : Option SendOutcome
  nextCount : Nat
  sleepSeconds : ℚ
deriving DecidableEq

/-- One iteration of the `while True` body in `main`: read both temperatures
(read faults already degrade to 0.0 inside `read_temperature`), build the
payload, send it, increment the counter and sleep 0.5 s.  If an exception
escapes the body — in this model, `generate_payload` raising `ValueError` —
the handler logs, sleeps 5 s and leaves the counter unchanged
(`send_to_device` swallows all its exceptions, so a transport fault never
reaches the handler). -/
def runCycle (pyfloat : List Char → Option ℚ) (cpu_path gpu_path : List Char)
    (env : CycleEnv) (cycle_count : Nat) : CycleOut :=
  let cpu_temp := (read_temperature pyfloat env.fs cpu_path).1
  let gpu_temp := (read_temperature pyfloat env.fs gpu_path).1
  match generate_payload cpu_temp gpu_temp with
  | none => ⟨cpu_temp, gpu_temp, none, none, cycle_count, 5⟩
  | some payload =>
    ⟨cpu_temp, gpu_temp, some payload,
      some (send_to_device env.usb payload), cycle_count + 1, 1 / 2⟩

/-- The cycle counter at the start of cycle `n`, starting from 0. -/
def countAt (pyfloat : List Char → Option ℚ) (cpu_path gpu_path : List Char)
    (envs : Nat → CycleEnv) : Nat → Nat
  | 0 => 0
  | n + 1 =>
    (runCycle pyfloat cpu_path gpu_path (envs n)
      (countAt pyfloat cpu_path gpu_path envs n)).nextCount

/-- Every non-`ok` send outcome is a transport fault. -/
def isTransportFault (r : SendResult) : Bool :=
  match r with
  | SendResult.ok => false
  | _ => true

/-- A USB environment with no device fault at all. -/
def cleanUsb (env : UsbEnv) : Bool :=
  env.devicePresent && !env.detachRaises && !env.setConfigRaises &&
    !env.getConfigRaises && env.hasOutEndpoint && !env.writeRaisesUSB

/-- A `float()` parser for the loop demos. -/
def demoLoopFloat : List Char → Option ℚ := fun s =>
  if s = ("50000").data then some 50000
  else if s = ("30000").data then some 30000
  else if s = ("-5000").data then some (-5000)
  else none

/-- Cycle-0 sensor files: cpu 50.0 °C, gpu 30.0 °C (in millidegrees). -/
def demoLoopFs0 : List Char → Option (List Char) := fun p =>
  if p = ("c").data then some ("50000").data
  else if p = ("g").data then some ("30000").data
  else none

/-- Cycle-1 sensor files for the counterexample: the cpu sensor now reports
-5.0 °C, on which `generate_payload` raises. -/
def demoLoopFs1 : List Char → Option (List Char) := fun p =>
  if p = ("c").data then some ("-5000").data
  else if p = ("g").data then some ("30000").data
  else none

/-- Counterexample environment: a write fault on cycle 0, then a clean device
but a negative cpu reading on every later cycle. -/
def demoEnvsBad : Nat → CycleEnv := fun n =>
  if n = 0 then ⟨demoLoopFs0, envWriteFails⟩ else ⟨demoLoopFs1, envClean⟩

/-- Witness environment: a write fault on cycle 0, then a clean device and
normal readings. -/
def demoEnvsGood : Nat → CycleEnv := fun n =>
  if n = 0 then ⟨demoLoopFs0, envWriteFails⟩ else ⟨demoLoopFs0, envClean⟩

/-- Outcome of touching one full path: `os.path.exists` is false (`absent`),
the open/read raises (`raises`), or the read yields raw content (`ok`). -/
inductive ReadOutcome where
  | absent
  | raises
  | ok (content : List Char)
deriving DecidableEq

/-- One hwmon directory for the listing claim: its directory name, a map from
full paths to read outcomes, and the `os.listdir(sensor_path)` order. -/
structure SensorDir where
  dirname : List Char
  read : List Char → ReadOutcome
  files : List (List Char)

/-- One value of the dictionary `list_hwmon_sensors` returns: the sensor path
key, the stripped driver name, and the `(channel, label, temperature)` list
(`none` = the "unavailable" marker used when the value file is missing). -/
structure SensorInfo where
  path : List Char
  name : List Char
  labels : List (List Char × List Char × Option ℚ)
deriving DecidableEq

/-- Source `list_hwmon_sensors()`: for each directory whose `name` file exists, read
it (this read is OUTSIDE the `try`, so if it raises the whole listing
raises, modelled as `Except.error`), then for each `temp*_label` file, inside
a per-file `try`: read the label, check the matching `_input` path (derived
with `replace("_label", "_input")` on the full path), read and parse it
(`/1000`), or record `None` when the value file is missing; any exception in
that `try` logs and skips just that channel.  Channels are keyed by
`temp_file.replace("_label", "")`. -/
def list_hwmon_sensors (pyfloat : List Char → Option ℚ) :
    List SensorDir → Except Unit (List SensorInfo)
  | [] => Except.ok []
  | d :: rest =>
    match d.read (pathJoin (pathJoin hwmonBase d.dirname) (("name").data)) with
    | ReadOutcome.absent => list_hwmon_sensors pyfloat rest
    | ReadOutcome.raises => Except.error ()
    | ReadOutcome.ok nc =>
      let sensor_path := pathJoin hwmonBase d.dirname
      let labels := d.files.filterMap fun temp_file =>
        if isTempLabel temp_file = true then
          let label_path := pathJoin sensor_path temp_file
          let temp_input_path := pyReplace (("_label").data) (("_input").data) label_path
          match d.read label_path with
          | ReadOutcome.raises => none
          | ReadOutcome.absent => none
          | ReadOutcome.ok lc =>
            match d.read temp_input_path with
            | ReadOutcome.absent =>
              some (pyReplace (("_label").data) [] temp_file, stripChars lc, none)
            | ReadOutcome.raises => none
            | ReadOutcome.ok ic =>
              match pyfloat (stripChars ic) with
              | none => none
              | some v =>
                some (pyReplace (("_label").data) [] temp_file, stripChars lc,
                  some (v / 1000))
        else none
      match list_hwmon_sensors pyfloat rest with
      | Except.error e => Except.error e
      | Except.ok others => Except.ok (⟨sensor_path, stripChars nc, labels⟩ :: others)

instance {ε α : Type} [DecidableEq ε] [DecidableEq α] : DecidableEq (Except ε α) := fun x y =>
  match x, y with
  | Except.error a, Except.error b =>
    if h : a = b then isTrue (congrArg Except.error h)
    else isFalse fun hc => h (Except.error.inj hc)
  | Except.error _, Except.ok _ => isFalse fun hc => Except.noConfusion hc
  | Except.ok _, Except.error _ => isFalse fun hc => Except.noConfusion hc
  | Except.ok a, Except.ok b =>
    if h : a = b then isTrue (congrArg Except.ok h)
    else isFalse fun hc => h (Except.ok.inj hc)

/-- A directory whose `temp1` channel has a readable label (`CPU`) but an
unparsable value file, and whose `temp2` channel is fully healthy. -/
def demoDirBad : SensorDir :=
  ⟨("hwmon0").data,
    fun p =>
      if p = ("/sys/class/hwmon/hwmon0/name").data then ReadOutcome.ok (("asusec\n").data)
      else if p = ("/sys/class/hwmon/hwmon0/temp1_label").data then
        ReadOutcome.ok (("CPU\n").data)
      else if p = ("/sys/class/hwmon/hwmon0/temp1_input").data then
        ReadOutcome.ok (("garbage").data)
      else if p = ("/sys/class/hwmon/hwmon0/temp2_label").data then
        ReadOutcome.ok (("GPU\n").data)
      else if p = ("/sys/class/hwmon/hwmon0/temp2_input").data then
        ReadOutcome.ok (("30000").data)
      else ReadOutcome.absent,
    [("temp1_label").data, ("temp2_label").data]⟩

/-- A directory with a healthy channel (`temp1`, 41 °C), a channel whose value
file is missing (`temp2`), and a channel whose label read raises (`temp3`). -/
def demoDirMix : SensorDir :=
  ⟨("hwmon0").data,
    fun p =>
      if p = ("/sys/class/hwmon/hwmon0/name").data then ReadOutcome.ok (("asusec\n").data)
      else if p = ("/sys/class/hwmon/hwmon0/temp1_label").data then
        ReadOutcome.ok (("CPU\n").data)
      else if p = ("/sys/class/hwmon/hwmon0/temp1_input").data then
        ReadOutcome.ok (("41000").data)
      else if p = ("/sys/class/hwmon/hwmon0/temp2_label").data then
        ReadOutcome.ok (("GPU\n").data)
      else if p = ("/sys/class/hwmon/hwmon0/temp3_label").data then
        ReadOutcome.raises
      else ReadOutcome.absent,
    [("temp1_label").data, ("temp2_label").data, ("temp3_label").data]⟩

/-- A `float()` parser for the listing demos. -/
def demoListFloat : List Char → Option ℚ := fun s =>
  if s = ("41000").data then some 41000
  else if s = ("30000").data then some 30000
  else none

/-- The entry `list_hwmon_sensors` produces for `demoDirMix`. -/
def demoInfoMix : SensorInfo :=
  ⟨("/sys/class/hwmon/hwmon0").data, ("asusec").data,
    [(("temp1").data, ("CPU").data, some 41),
     (("temp2").data, ("GPU").data, none)]⟩

/-! ## Lemmas and claim theorems -/

theorem pyInt_intCast (m : ℤ) : pyInt (m : ℚ) = m := by
  unfold pyInt
  split <;> simp

theorem pyInt_of_nonneg {q : ℚ} (h : 0 ≤ q) : pyInt q = ⌊q⌋ := if_pos h

theorem pyMod_nonneg (a : ℚ) : 0 ≤ pyMod a 10 := by
  unfold pyMod
  have h1 : (⌊a / 10⌋ : ℚ) ≤ a / 10 := Int.floor_le _
  have h2 : a / 10 * 10 = a := by field_simp
  nlinarith

theorem pyMod_lt_ten (a : ℚ) : pyMod a 10 < 10 := by
  unfold pyMod
  have h1 : a / 10 < (⌊a / 10⌋ : ℚ) + 1 := Int.lt_floor_add_one _
  have h2 : a / 10 * 10 = a := by field_simp
  nlinarith

theorem floor_pyMod_nonneg (a : ℚ) : 0 ≤ ⌊pyMod a 10⌋ :=
  Int.le_floor.mpr (by exact_mod_cast pyMod_nonneg a)

theorem floor_pyMod_le_nine (a : ℚ) : ⌊pyMod a 10⌋ ≤ 9 := by
  have := Int.floor_lt.mpr (show pyMod a 10 < ((10 : ℤ) : ℚ) by exact_mod_cast pyMod_lt_ten a)
  omega

theorem encode_temperature_int (t : ℚ) : (encode_temperature t).1 = ⌊t / 10⌋ := by
  simp [encode_temperature, pyFloorDiv, pyInt_intCast]

theorem encode_temperature_tenths (t : ℚ) : (encode_temperature t).2.1 = ⌊pyMod t 10⌋ := by
  simp [encode_temperature, pyInt_of_nonneg (pyMod_nonneg t)]

theorem encode_temperature_hundredths (t : ℚ) :
    (encode_temperature t).2.2 = ⌊pyMod (t * 10) 10⌋ := by
  simp [encode_temperature, pyInt_of_nonneg (pyMod_nonneg (t * 10))]

theorem floor_div_ten_nonneg {t : ℚ} (h : 0 ≤ t) : 0 ≤ ⌊t / 10⌋ :=
  Int.le_floor.mpr (by positivity)

theorem floor_div_ten_le {t : ℚ} (h : t < 2560) : ⌊t / 10⌋ ≤ 255 := by
  have h10 : t / 10 < ((256 : ℤ) : ℚ) := by
    rw [div_lt_iff₀ (by norm_num)]
    push_cast
    linarith
  have := Int.floor_lt.mpr h10
  omega

theorem toHexDigitsAux_of_lt (fuel k : Nat) (h : k < 16) : toHexDigitsAux fuel k = [k] := by
  cases fuel with
  | zero => simp [toHexDigitsAux, Nat.mod_eq_of_lt h]
  | succ n => simp [toHexDigitsAux, h]

theorem toHexDigits_of_lt {n : Nat} (h : n < 16) : toHexDigits n = [n] :=
  toHexDigitsAux_of_lt n n h

theorem toHexDigits_of_ge {n : Nat} (h16 : 16 ≤ n) (h256 : n < 256) :
    toHexDigits n = [n / 16, n % 16] := by
  unfold toHexDigits
  obtain ⟨m, rfl⟩ : ∃ m, n = m + 1 := ⟨n - 1, by omega⟩
  rw [toHexDigitsAux, if_neg (by omega), toHexDigitsAux_of_lt m _ (by omega)]
  rfl

theorem format02x_eq {n : ℤ} (h0 : 0 ≤ n) (h1 : n ≤ 255) :
    format02x n = [HexChar.digit (n.toNat / 16), HexChar.digit (n.toNat % 16)] := by
  unfold format02x
  rw [if_neg (by omega)]
  by_cases h : n.toNat < 16
  · rw [toHexDigits_of_lt h]
    simp [Nat.div_eq_of_lt h, Nat.mod_eq_of_lt h, List.replicate]
  · rw [toHexDigits_of_ge (by omega) (by omega)]
    simp

theorem fromhex_cons {a b : Nat} (ha : a < 16) (hb : b < 16) (rest : List HexChar) :
    fromhex (HexChar.digit a :: HexChar.digit b :: rest) =
      (fromhex rest).map (fun l => (16 * a + b) :: l) := by
  simp [fromhex, ha, hb]

theorem fromhex_format02x {n : ℤ} (h0 : 0 ≤ n) (h1 : n ≤ 255) (rest : List HexChar) :
    fromhex (format02x n ++ rest) = (fromhex rest).map (fun l => n.toNat :: l) := by
  rw [format02x_eq h0 h1, List.cons_append, List.cons_append,
    fromhex_cons (by omega) (by omega), Nat.div_add_mod]
  simp

theorem fromhex_format02x_nil {n : ℤ} (h0 : 0 ≤ n) (h1 : n ≤ 255) :
    fromhex (format02x n) = some [n.toNat] := by
  have h := fromhex_format02x h0 h1 []
  rw [List.append_nil] at h
  simp [h, fromhex]

/-- Master computation: for inputs whose encoded parts each fit one byte
(`0 ≤ t < 2560`), `generate_payload` returns exactly the 12-byte frame
`55 aa 01 01 06 | cpu parts | gpu parts | checksum`. -/
theorem generate_payload_eq (cpu gpu : ℚ)
    (hc0 : 0 ≤ cpu) (hc1 : cpu < 2560) (hg0 : 0 ≤ gpu) (hg1 : gpu < 2560) :
    generate_payload cpu gpu =
      some [85, 170, 1, 1, 6,
        (encode_temperature cpu).1.toNat, (encode_temperature cpu).2.1.toNat,
        (encode_temperature cpu).2.2.toNat, (encode_temperature gpu).1.toNat,
        (encode_temperature gpu).2.1.toNat, (encode_temperature gpu).2.2.toNat,
        ((encode_temperature cpu).1.toNat + (encode_temperature cpu).2.1.toNat +
         (encode_temperature cpu).2.2.toNat + (encode_temperature gpu).1.toNat +
         (encode_temperature gpu).2.1.toNat + (encode_temperature gpu).2.2.toNat + 7) % 256] := by
  have hcA0 : 0 ≤ (encode_temperature cpu).1 := by
    rw [encode_temperature_int]; exact floor_div_ten_nonneg hc0
  have hcA1 : (encode_temperature cpu).1 ≤ 255 := by
    rw [encode_temperature_int]; exact floor_div_ten_le hc1
  have hcB0 : 0 ≤ (encode_temperature cpu).2.1 := by
    rw [encode_temperature_tenths]; exact floor_pyMod_nonneg cpu
  have hcB1 : (encode_temperature cpu).2.1 ≤ 255 := by
    rw [encode_temperature_tenths]; have := floor_pyMod_le_nine cpu; omega
  have hcC0 : 0 ≤ (encode_temperature cpu).2.2 := by
    rw [encode_temperature_hundredths]; exact floor_pyMod_nonneg _
  have hcC1 : (encode_temperature cpu).2.2 ≤ 255 := by
    rw [encode_temperature_hundredths]; have := floor_pyMod_le_nine (cpu * 10); omega
  have hgA0 : 0 ≤ (encode_temperature gpu).1 := by
    rw [encode_temperature_int]; exact floor_div_ten_nonneg hg0
  have hgA1 : (encode_temperature gpu).1 ≤ 255 := by
    rw [encode_temperature_int]; exact floor_div_ten_le hg1
  have hgB0 : 0 ≤ (encode_temperature gpu).2.1 := by
    rw [encode_temperature_tenths]; exact floor_pyMod_nonneg gpu
  have hgB1 : (encode_temperature gpu).2.1 ≤ 255 := by
    rw [encode_temperature_tenths]; have := floor_pyMod_le_nine gpu; omega
  have hgC0 : 0 ≤ (encode_temperature gpu).2.2 := by
    rw [encode_temperature_hundredths]; exact floor_pyMod_nonneg _
  have hgC1 : (encode_temperature gpu).2.2 ≤ 255 := by
    rw [encode_temperature_hundredths]; have := floor_pyMod_le_nine (gpu * 10); omega
  unfold generate_payload encode_hex
  dsimp only
  rw [show ∀ a b c d e f : List HexChar,
        (a ++ b ++ c) ++ (d ++ e ++ f) = a ++ (b ++ (c ++ (d ++ (e ++ f)))) by
      intros; simp [List.append_assoc]]
  rw [fromhex_format02x hcA0 hcA1, fromhex_format02x hcB0 hcB1,
    fromhex_format02x hcC0 hcC1, fromhex_format02x hgA0 hgA1,
    fromhex_format02x hgB0 hgB1, fromhex_format02x_nil hgC0 hgC1]
  simp only [Option.map_some']
  simp only [List.sum_cons, List.sum_nil, Nat.add_zero]
  have hcs0 : (0 : ℤ) ≤
      ((((encode_temperature cpu).1.toNat + ((encode_temperature cpu).2.1.toNat +
        ((encode_temperature cpu).2.2.toNat + ((encode_temperature gpu).1.toNat +
        ((encode_temperature gpu).2.1.toNat + (encode_temperature gpu).2.2.toNat))))) + 7) % 256 : ℕ) :=
    Int.natCast_nonneg _
  have hcs1 : ((((encode_temperature cpu).1.toNat + ((encode_temperature cpu).2.1.toNat +
        ((encode_temperature cpu).2.2.toNat + ((encode_temperature gpu).1.toNat +
        ((encode_temperature gpu).2.1.toNat + (encode_temperature gpu).2.2.toNat))))) + 7) % 256 : ℕ) < 256 :=
    Nat.mod_lt _ (by norm_num)
  simp only [headerHex, List.append_assoc, List.cons_append, List.nil_append]
  rw [fromhex_cons (by norm_num) (by norm_num), fromhex_cons (by norm_num) (by norm_num),
    fromhex_cons (by norm_num) (by norm_num), fromhex_cons (by norm_num) (by norm_num),
    fromhex_cons (by norm_num) (by norm_num)]
  rw [fromhex_format02x hcA0 hcA1, fromhex_format02x hcB0 hcB1,
    fromhex_format02x hcC0 hcC1, fromhex_format02x hgA0 hgA1,
    fromhex_format02x hgB0 hgB1, fromhex_format02x hgC0 hgC1,
    fromhex_format02x_nil hcs0 (by omega)]
  simp only [Option.map_some', Int.toNat_natCast]
  norm_num [List.cons.injEq]
  omega

/-- C1 counterexample: `generate_payload` is not total on all finite floats.
At `cpu_temp = -1.0` (an exact double) the hex string starts with `"-1"`, so
`bytes.fromhex` raises `ValueError` and no 12-byte frame is returned. -/
theorem c1_counterexample : generate_payload (-1) 0 = none := by
  with_unfolding_all decide

/-- C1 (amended): `generate_payload` is deterministic (it is a pure function of
its two arguments), and for every input pair with `0 ≤ t < 2560` — in
particular on the whole intended range `0 ≤ t < 100` — it returns, without
raising, a byte sequence of exactly 12 bytes.  Outside that range totality
fails: negative inputs raise `ValueError` (see the counterexample). -/
theorem c1_payload_twelve_bytes (cpu gpu : ℚ)
    (hc0 : 0 ≤ cpu) (hc1 : cpu < 2560) (hg0 : 0 ≤ gpu) (hg1 : gpu < 2560) :
    ∃ frame, generate_payload cpu gpu = some frame ∧ frame.length = 12 :=
  ⟨_, generate_payload_eq cpu gpu hc0 hc1 hg0 hg1, rfl⟩

/-- Witness for C1 at `(50.0, 30.0)`. -/
theorem c1_witness :
    ((0 : ℚ) ≤ 50 ∧ (50 : ℚ) < 2560 ∧ (0 : ℚ) ≤ 30 ∧ (30 : ℚ) < 2560) ∧
      ∃ frame, generate_payload 50 30 = some frame ∧ frame.length = 12 :=
  ⟨⟨by with_unfolding_all decide, by with_unfolding_all decide,
    by with_unfolding_all decide, by with_unfolding_all decide⟩,
    c1_payload_twelve_bytes 50 30 (by with_unfolding_all decide)
      (by with_unfolding_all decide) (by with_unfolding_all decide)
      (by with_unfolding_all decide)⟩

/-- C2 counterexample: at `cpu = gpu = 2560.5` (an exact double) the produced
frame has 13 bytes: positions 5-11 hold the seven combined bytes
`16 0 0 81 0 0 5` and the final checksum byte is 109.  The claim's equation
fails on this produced frame: the last byte is `109 ≠ (16+0+0+81+0+0+7) % 256
= 104`, and `frame[11] = 5 ≠ 104` as well. -/
theorem c2_counterexample :
    generate_payload (5121 / 2) (5121 / 2) =
        some [85, 170, 1, 1, 6, 16, 0, 0, 81, 0, 0, 5, 109] ∧
      (16 + 0 + 0 + 81 + 0 + 0 + 7) % 256 ≠ 109 ∧
      (16 + 0 + 0 + 81 + 0 + 0 + 7) % 256 ≠ 5 :=
  ⟨by with_unfolding_all decide, by decide, by decide⟩

/-- C2 (amended): for every frame produced from inputs whose encoded parts each
fit one byte (`0 ≤ t < 2560`), the frame is 12 bytes long and its last byte
(position 11) equals the sum of the six encoded temperature bytes (positions
5 through 10) plus 7, modulo 256. -/
theorem c2_checksum_invariant (cpu gpu : ℚ)
    (hc0 : 0 ≤ cpu) (hc1 : cpu < 2560) (hg0 : 0 ≤ gpu) (hg1 : gpu < 2560) :
    ∃ frame, generate_payload cpu gpu = some frame ∧ frame.length = 12 ∧
      frame.get? 11 = some ((((frame.drop 5).take 6).sum + 7) % 256) := by
  refine ⟨_, generate_payload_eq cpu gpu hc0 hc1 hg0 hg1, rfl, ?_⟩
  simp [List.sum_cons]
  omega

/-- Witness for C2 at `(65.4, 30.0)`, the spec's end-to-end example. -/
theorem c2_witness :
    ((0 : ℚ) ≤ 654 / 10 ∧ (654 / 10 : ℚ) < 2560 ∧ (0 : ℚ) ≤ 30 ∧ (30 : ℚ) < 2560) ∧
      ∃ frame, generate_payload (654 / 10) 30 = some frame ∧ frame.length = 12 ∧
        frame.get? 11 = some ((((frame.drop 5).take 6).sum + 7) % 256) :=
  ⟨⟨by with_unfolding_all decide, by with_unfolding_all decide,
    by with_unfolding_all decide, by with_unfolding_all decide⟩,
    c2_checksum_invariant (654 / 10) 30 (by with_unfolding_all decide)
      (by with_unfolding_all decide) (by with_unfolding_all decide)
      (by with_unfolding_all decide)⟩

/-- C3 counterexample: at `temp = 100.0` the first encoded value is
`int(100.0 // 10) = 10`, emitted as the single byte `0x0a` at frame position
5 — a byte ≥ 10, not a truncated single decimal digit. -/
theorem c3_counterexample :
    (encode_temperature 100).1 = 10 ∧
      generate_payload 100 0 = some [85, 170, 1, 1, 6, 10, 0, 0, 0, 0, 0, 17] :=
  ⟨by with_unfolding_all decide, by with_unfolding_all decide⟩

/-- C3 (amended): for nonnegative inputs the second and third encoded bytes
(ones digit and tenths digit) are always decimal digits 0-9, and the first
encoded byte is nonnegative and is a decimal digit 0-9 exactly when the
temperature is below 100; for temperatures at or above 100°C the first byte is
`int(t // 10) ≥ 10` — the value is not truncated to its tens digit. -/
theorem c3_digit_ranges (t : ℚ) (h0 : 0 ≤ t) :
    0 ≤ (encode_temperature t).2.1 ∧ (encode_temperature t).2.1 ≤ 9 ∧
      0 ≤ (encode_temperature t).2.2 ∧ (encode_temperature t).2.2 ≤ 9 ∧
      0 ≤ (encode_temperature t).1 ∧
      ((encode_temperature t).1 ≤ 9 ↔ t < 100) := by
  refine ⟨?_, ?_, ?_, ?_, ?_, ?_⟩
  · rw [encode_temperature_tenths]; exact floor_pyMod_nonneg t
  · rw [encode_temperature_tenths]; exact floor_pyMod_le_nine t
  · rw [encode_temperature_hundredths]; exact floor_pyMod_nonneg (t * 10)
  · rw [encode_temperature_hundredths]; exact floor_pyMod_le_nine (t * 10)
  · rw [encode_temperature_int]; exact floor_div_ten_nonneg h0
  · rw [encode_temperature_int]
    constructor
    · intro h
      have h2 : t / 10 < ((10 : ℤ) : ℚ) := Int.floor_lt.mp (by omega)
      rw [div_lt_iff₀ (by norm_num)] at h2
      push_cast at h2
      linarith
    · intro h
      have h2 : t / 10 < ((10 : ℤ) : ℚ) := by
        rw [div_lt_iff₀ (by norm_num)]
        push_cast
        linarith
      have := Int.floor_lt.mpr h2
      omega

/-- Witness for C3 at `t = 23.7`. -/
theorem c3_witness :
    ((0 : ℚ) ≤ 237 / 10) ∧
      (0 ≤ (encode_temperature (237 / 10)).2.1 ∧ (encode_temperature (237 / 10)).2.1 ≤ 9 ∧
        0 ≤ (encode_temperature (237 / 10)).2.2 ∧ (encode_temperature (237 / 10)).2.2 ≤ 9 ∧
        0 ≤ (encode_temperature (237 / 10)).1 ∧
        ((encode_temperature (237 / 10)).1 ≤ 9 ↔ (237 / 10 : ℚ) < 100)) :=
  ⟨by with_unfolding_all decide, c3_digit_ranges (237 / 10) (by with_unfolding_all decide)⟩

/-- C4: for `0 ≤ cpu < 100` (and a gpu value whose parts fit bytes), the three
encoded cpu bytes of the produced frame, at positions 5, 6 and 7, are
`int(cpu // 10)`, `int(cpu % 10)` and `int((cpu * 10) % 10)`. -/
theorem c4_digit_law (cpu gpu : ℚ) (hc0 : 0 ≤ cpu) (hc1 : cpu < 100)
    (hg0 : 0 ≤ gpu) (hg1 : gpu < 2560) :
    ∃ frame, generate_payload cpu gpu = some frame ∧
      frame.get? 5 = some (pyInt (pyFloorDiv cpu 10)).toNat ∧
      frame.get? 6 = some (pyInt (pyMod cpu 10)).toNat ∧
      frame.get? 7 = some (pyInt (pyMod (cpu * 10) 10)).toNat :=
  ⟨_, generate_payload_eq cpu gpu hc0 (by linarith) hg0 hg1, rfl, rfl, rfl⟩

/-- Witness for C4 at the spec's example `cpu_temp = 23.7`: the CPU bytes of
the frame are `02 03 07`. -/
theorem c4_witness :
    ((0 : ℚ) ≤ 237 / 10 ∧ (237 / 10 : ℚ) < 100 ∧ (0 : ℚ) ≤ 0 ∧ (0 : ℚ) < 2560) ∧
      (∃ frame, generate_payload (237 / 10) 0 = some frame ∧
        frame.get? 5 = some (pyInt (pyFloorDiv (237 / 10) 10)).toNat ∧
        frame.get? 6 = some (pyInt (pyMod (237 / 10) 10)).toNat ∧
        frame.get? 7 = some (pyInt (pyMod (237 / 10 * 10) 10)).toNat) ∧
      generate_payload (237 / 10) 0 = some [85, 170, 1, 1, 6, 2, 3, 7, 0, 0, 0, 19] :=
  ⟨⟨by with_unfolding_all decide, by with_unfolding_all decide,
    by with_unfolding_all decide, by with_unfolding_all decide⟩,
    c4_digit_law (237 / 10) 0 (by with_unfolding_all decide)
      (by with_unfolding_all decide) (by with_unfolding_all decide)
      (by with_unfolding_all decide),
    by with_unfolding_all decide⟩

/-- C5: `read_temperature` never raises past its boundary.  If the source file
exists and its stripped content parses as a number `v`, it returns `v / 1000`
(logging only a debug line); on a missing source, or on content that fails to
parse, it returns the fallback `0.0` and reports an error to the observer. -/
theorem c5_read_temperature_spec (pyfloat : List Char → Option ℚ)
    (fs : List Char → Option (List Char)) (path : List Char) :
    (∀ content v, fs path = some content → pyfloat (stripChars content) = some v →
      read_temperature pyfloat fs path = (v / 1000, [LogLevel.debug])) ∧
      (fs path = none → read_temperature pyfloat fs path = (0, [LogLevel.error])) ∧
      (∀ content, fs path = some content → pyfloat (stripChars content) = none →
        read_temperature pyfloat fs path = (0, [LogLevel.error])) := by
  refine ⟨?_, ?_, ?_⟩ <;> intros <;> simp_all [read_temperature]

/-- Witness for C5: reading `t1` through `demoFs` gives `41.0` with a debug
log; reading the absent path `t2` gives the fallback `0.0` with an error. -/
theorem c5_witness :
    (demoFs (("t1").data) = some ((" 41000 ").data) ∧
      demoFloat (stripChars ((" 41000 ").data)) = some 41000 ∧
      demoFs (("t2").data) = none) ∧
      read_temperature demoFloat demoFs (("t1").data) = (41, [LogLevel.debug]) ∧
      read_temperature demoFloat demoFs (("t2").data) = (0, [LogLevel.error]) := by
  refine ⟨⟨by decide, by decide, by decide⟩, ?_, ?_⟩
  · have h := (c5_read_temperature_spec demoFloat demoFs (("t1").data)).1
      ((" 41000 ").data) 41000 (by decide) (by decide)
    rw [h]
    with_unfolding_all decide
  · exact (c5_read_temperature_spec demoFloat demoFs (("t2").data)).2.1 (by decide)

theorem findSome?_append_of_none {α β : Type} {f : α → Option β} (pre rest : List α)
    (h : ∀ a ∈ pre, f a = none) :
    (pre ++ rest).findSome? f = rest.findSome? f := by
  induction pre with
  | nil => rfl
  | cons a pre ih =>
    rw [List.cons_append, List.findSome?_cons, h a (by simp)]
    exact ih fun a ha => h a (by simp [ha])

theorem find_temp_file_cons_of_nomatch {k l : List Char} {e : HwmonEntry}
    {tree : List HwmonEntry} (h : entryMatchesB k l e = false) :
    find_temp_file (e :: tree) k l = find_temp_file tree k l := by
  unfold find_temp_file
  rw [List.findSome?_cons]
  cases hnc : e.nameContent with
  | none => rfl
  | some nc =>
    by_cases hk : stripChars nc = k
    · have hany : e.files.any (labelMatchesB l) = false := by
        simp only [entryMatchesB, hnc, hk, beq_self_eq_true, Bool.true_and] at h
        exact h
      have hall := List.any_eq_false.mp hany
      have hnone : (e.files.findSome? fun fc =>
          if isTempLabel fc.1 = true ∧ stripChars fc.2 = l then
            some (pyReplace (("_label").data) (("_input").data)
              (pathJoin (pathJoin hwmonBase e.dirname) fc.1))
          else none) = none := by
        rw [List.findSome?_eq_none_iff]
        intro fc hfc
        rw [if_neg]
        intro hcon
        have hT : labelMatchesB l fc = true := by
          simp [labelMatchesB, hcon.1, hcon.2]
        simp [hall fc hfc] at hT
      simp [hk, hnone]
    · simp [hk]

theorem find_temp_file_append_of_nomatch {k l : List Char} (pre tree : List HwmonEntry)
    (h : ∀ e ∈ pre, entryMatchesB k l e = false) :
    find_temp_file (pre ++ tree) k l = find_temp_file tree k l := by
  induction pre with
  | nil => rfl
  | cons e pre ih =>
    rw [List.cons_append, find_temp_file_cons_of_nomatch (h e (by simp))]
    exact ih fun e2 he2 => h e2 (by simp [he2])

theorem find_temp_file_cons_of_match {k l fname fcontent : List Char} {e : HwmonEntry}
    {tree : List HwmonEntry} {fpre fpost : List (List Char × List Char)}
    (hnc : ∃ nc, e.nameContent = some nc ∧ stripChars nc = k)
    (hfiles : e.files = fpre ++ (fname, fcontent) :: fpost)
    (hpre : ∀ fc ∈ fpre, labelMatchesB l fc = false)
    (hmatch : labelMatchesB l (fname, fcontent) = true) :
    find_temp_file (e :: tree) k l =
      some (pyReplace (("_label").data) (("_input").data)
        (pathJoin (pathJoin hwmonBase e.dirname) fname)) := by
  obtain ⟨nc, hnc1, hnc2⟩ := hnc
  unfold find_temp_file
  rw [List.findSome?_cons]
  simp only [hnc1, hnc2, if_pos rfl]
  have hinner : (e.files.findSome? fun fc =>
      if isTempLabel fc.1 = true ∧ stripChars fc.2 = l then
        some (pyReplace (("_label").data) (("_input").data)
          (pathJoin (pathJoin hwmonBase e.dirname) fc.1))
      else none) =
      some (pyReplace (("_label").data) (("_input").data)
        (pathJoin (pathJoin hwmonBase e.dirname) fname)) := by
    rw [hfiles, findSome?_append_of_none _ _ ?side]
    case side =>
      intro fc hfc
      rw [if_neg]
      intro hcon
      have hT : labelMatchesB l fc = true := by
        simp [labelMatchesB, hcon.1, hcon.2]
      simp [hpre fc hfc] at hT
    rw [List.findSome?_cons]
    simp only [labelMatchesB, Bool.and_eq_true, beq_iff_eq] at hmatch
    rw [if_pos ⟨hmatch.1, hmatch.2⟩]
  simp [hinner]

/-- C6: the resolver enumerates the tree in order and returns the endpoint
derived from the first matching (driver, label) pair.  First conjunct: if no
entry has both the requested name and a matching label, the result is `None`
(no exception — the function is total).  Second conjunct: if the tree splits
as `pre ++ e :: post` where nothing in `pre` matches, `e`'s name file strips
to the requested sensor name, and `e`'s file list splits as
`fpre ++ (fname, fcontent) :: fpost` with nothing in `fpre` matching and
`(fname, fcontent)` a matching label, then the result is that label path
with `"_label"` replaced by `"_input"`. -/
theorem c6_resolver (tree : List HwmonEntry) (sensor_name label_name : List Char) :
    ((∀ e ∈ tree, entryMatchesB sensor_name label_name e = false) →
      find_temp_file tree sensor_name label_name = none) ∧
      (∀ pre (e : HwmonEntry) post fpre fname fcontent fpost,
        tree = pre ++ e :: post →
        (∀ e2 ∈ pre, entryMatchesB sensor_name label_name e2 = false) →
        (∃ nc, e.nameContent = some nc ∧ stripChars nc = sensor_name) →
        e.files = fpre ++ (fname, fcontent) :: fpost →
        (∀ fc ∈ fpre, labelMatchesB label_name fc = false) →
        labelMatchesB label_name (fname, fcontent) = true →
        find_temp_file tree sensor_name label_name =
          some (pyReplace (("_label").data) (("_input").data)
            (pathJoin (pathJoin hwmonBase e.dirname) fname))) := by
  constructor
  · intro h
    induction tree with
    | nil => rfl
    | cons e rest ih =>
      rw [find_temp_file_cons_of_nomatch (h e (by simp))]
      exact ih fun e2 he2 => h e2 (by simp [he2])
  · intro pre e post fpre fname fcontent fpost htree hpre hname hfiles hfpre hmatch
    subst htree
    rw [find_temp_file_append_of_nomatch pre _ hpre]
    exact find_temp_file_cons_of_match hname hfiles hfpre hmatch

theorem replaceAux_fuel (pat rep : List Char) :
    ∀ (f1 : Nat) (s : List Char) (f2 : Nat), s.length ≤ f1 → s.length ≤ f2 →
      replaceAux pat rep f1 s = replaceAux pat rep f2 s := by
  intro f1
  induction f1 with
  | zero =>
    intro s f2 h1 _
    have hs : s = [] := List.length_eq_zero.mp (Nat.le_zero.mp h1)
    subst hs
    cases f2 <;> rfl
  | succ f ih =>
    intro s f2 h1 h2
    cases s with
    | nil => cases f2 <;> rfl
    | cons c rest =>
      cases f2 with
      | zero => simp at h2
      | succ f2 =>
        simp only [List.length_cons, Nat.add_le_add_iff_right] at h1 h2
        simp only [replaceAux]
        by_cases hc : pat ≠ [] ∧ (c :: rest).take pat.length = pat
        · rw [if_pos hc, if_pos hc,
            ih (rest.drop (pat.length - 1)) f2 (le_trans (by simp) h1)
              (le_trans (by simp) h2)]
        · rw [if_neg hc, if_neg hc, ih rest f2 h1 h2]

theorem pyReplace_nil (pat rep : List Char) : pyReplace pat rep [] = [] := rfl

theorem pyReplace_cons_of_match {pat : List Char} (rep : List Char) {c : Char}
    {rest : List Char} (hpat : pat ≠ []) (h : (c :: rest).take pat.length = pat) :
    pyReplace pat rep (c :: rest) = rep ++ pyReplace pat rep (rest.drop (pat.length - 1)) := by
  unfold pyReplace
  simp only [List.length_cons, replaceAux, if_pos (And.intro hpat h)]
  rw [replaceAux_fuel pat rep rest.length _ ((rest.drop (pat.length - 1)).length)
    (by simp) le_rfl]

theorem pyReplace_cons_of_nomatch {pat : List Char} (rep : List Char) {c : Char}
    {rest : List Char} (h : ¬(pat ≠ [] ∧ (c :: rest).take pat.length = pat)) :
    pyReplace pat rep (c :: rest) = c :: pyReplace pat rep rest := by
  unfold pyReplace
  simp only [List.length_cons, replaceAux, if_neg h]

/-- Scan law: if the first occurrence of `pat` in `s` starts at index `i0`,
`pyReplace` copies `s` up to `i0`, emits `rep`, and continues after the
occurrence. -/
theorem pyReplace_first_occ (pat rep : List Char) (hpat : pat ≠ []) :
    ∀ (i0 : Nat) (s : List Char), (s.drop i0).take pat.length = pat →
      (∀ j < i0, (s.drop j).take pat.length ≠ pat) →
      pyReplace pat rep s = s.take i0 ++ rep ++ pyReplace pat rep (s.drop (i0 + pat.length)) := by
  intro i0
  induction i0 with
  | zero =>
    intro s h0 _
    rw [List.drop_zero] at h0
    cases s with
    | nil => simp at h0; exact absurd h0 hpat
    | cons c rest =>
      rw [pyReplace_cons_of_match rep hpat h0]
      simp only [List.take_zero, List.nil_append, Nat.zero_add]
      obtain ⟨m, hm⟩ : ∃ m, pat.length = m + 1 :=
        ⟨pat.length - 1, by have := List.length_pos.mpr hpat; omega⟩
      rw [hm]
      simp [List.drop_succ_cons]
  | succ i ih =>
    intro s h0 hmin
    cases s with
    | nil =>
      simp only [List.drop_nil, List.take_nil] at h0
      exact absurd h0.symm hpat
    | cons c rest =>
      rw [pyReplace_cons_of_nomatch rep ?nm]
      case nm =>
        intro hcon
        exact hmin 0 (Nat.succ_pos i) (by simpa using hcon.2)
      rw [ih rest (by simpa using h0)
        (fun j hj => by simpa using hmin (j + 1) (by omega))]
      have hdrop : (c :: rest).drop (i + 1 + pat.length) = rest.drop (i + pat.length) := by
        rw [show i + 1 + pat.length = (i + pat.length) + 1 by omega, List.drop_succ_cons]
      rw [List.take_succ_cons, hdrop, List.cons_append, List.cons_append]

/-- If `pat` occurs in `a ++ pat` only as the final suffix, replacing swaps
exactly that suffix. -/
theorem pyReplace_suffix_swap (pat rep : List Char) (hpat : pat ≠ [])
    (a : List Char) (hmin : ∀ j < a.length, ((a ++ pat).drop j).take pat.length ≠ pat) :
    pyReplace pat rep (a ++ pat) = a ++ rep := by
  have h0 : ((a ++ pat).drop a.length).take pat.length = pat := by
    rw [List.drop_left, List.take_length]
  rw [pyReplace_first_occ pat rep hpat a.length _ h0 hmin, List.take_left]
  have hnil : (a ++ pat).drop (a.length + pat.length) = [] :=
    List.drop_eq_nil_of_le (by simp)
  rw [hnil, pyReplace_nil, List.append_nil]

/-- An occurrence of a nonempty `pat` starts strictly inside `s`. -/
theorem occ_lt_length {pat s : List Char} {i : Nat} (hpat : pat ≠ [])
    (h : (s.drop i).take pat.length = pat) : i < s.length := by
  have hlen := congrArg List.length h
  simp only [List.length_take, List.length_drop] at hlen
  have := List.length_pos.mpr hpat
  omega

theorem occCount_eq_one_unique {pat s : List Char} (hpat : pat ≠ [])
    (h : occCount pat s = 1) {i j : Nat}
    (hi : (s.drop i).take pat.length = pat) (hj : (s.drop j).take pat.length = pat) :
    i = j := by
  unfold occCount at h
  obtain ⟨a, ha⟩ := List.length_eq_one.mp h
  have hmem : ∀ m, (s.drop m).take pat.length = pat → m = a := by
    intro m hm
    have hmr : m ∈ List.range (s.length + 1) :=
      List.mem_range.mpr (by have := occ_lt_length hpat hm; omega)
    have : m ∈ (List.range (s.length + 1)).filter
        fun i => (s.drop i).take pat.length == pat :=
      List.mem_filter.mpr ⟨hmr, by simp [hm]⟩
    rw [ha] at this
    simpa using this
  rw [hmem i hi, hmem j hj]

/-- If `pat` also occurs wholly inside the stem `A`, the replace-all result on
`A ++ pat` differs from the plain suffix swap `A ++ rep` (for same-length,
distinct `pat`/`rep`). -/
theorem pyReplace_ne_plain_swap (pat rep : List Char) (hpat : pat ≠ [])
    (hlen : rep.length = pat.length) (hne : pat ≠ rep)
    (A : List Char) (i1 : Nat)
    (hocc : ((A ++ pat).drop i1).take pat.length = pat)
    (hbound : i1 + pat.length ≤ A.length) :
    pyReplace pat rep (A ++ pat) ≠ A ++ rep := by
  have hex : ∃ i, ((A ++ pat).drop i).take pat.length = pat := ⟨i1, hocc⟩
  have hI0 : ((A ++ pat).drop (Nat.find hex)).take pat.length = pat := Nat.find_spec hex
  have hmin : ∀ j < Nat.find hex, ¬((A ++ pat).drop j).take pat.length = pat :=
    fun j hj => Nat.find_min hex hj
  have hle : Nat.find hex ≤ i1 := Nat.find_min' hex hocc
  have hb0 : Nat.find hex + pat.length ≤ A.length := by omega
  set i0 := Nat.find hex with hi0
  rw [pyReplace_first_occ pat rep hpat i0 _ hI0 hmin]
  intro hEq
  have hpatpos : 0 < pat.length := List.length_pos.mpr hpat
  have hi0A : i0 ≤ A.length := by omega
  have hi0s : i0 ≤ (A ++ pat).length := by simp; omega
  -- the replaced string carries `rep` at positions [i0, i0 + |pat|)
  have h1 : ((((A ++ pat).take i0 ++ rep ++
      pyReplace pat rep ((A ++ pat).drop (i0 + pat.length))).drop i0).take rep.length) = rep := by
    have hlt : ((A ++ pat).take i0).length = i0 := by
      rw [List.length_take]
      omega
    rw [List.append_assoc, List.drop_append_eq_append_drop, hlt,
      List.drop_eq_nil_of_le hlt.le, Nat.sub_self, List.drop_zero, List.nil_append,
      List.take_append_eq_append_take, List.take_length, Nat.sub_self, List.take_zero,
      List.append_nil]
  -- while the plain swap carries `pat` there
  have hAdrop : (A ++ pat).drop i0 = A.drop i0 ++ pat := by
    rw [List.drop_append_eq_append_drop, show i0 - A.length = 0 by omega, List.drop_zero]
  have hApat : (A.drop i0).take pat.length = pat := by
    have hlA : pat.length ≤ (A.drop i0).length := by
      rw [List.length_drop]; omega
    rw [hAdrop, List.take_append_eq_append_take,
      show pat.length - (A.drop i0).length = 0 by omega, List.take_zero,
      List.append_nil] at hI0
    exact hI0
  have h2 : (((A ++ rep).drop i0).take rep.length) = pat := by
    rw [List.drop_append_eq_append_drop, show i0 - A.length = 0 by omega, List.drop_zero,
      List.take_append_eq_append_take, hlen,
      show pat.length - (A.drop i0).length = 0 by (rw [List.length_drop]; omega),
      List.take_zero, List.append_nil]
    exact hApat
  rw [hEq, h2] at h1
  exact hne h1

/-- C10: in the first-match scenario (same hypotheses as C6, with the matched
file name split as `stem ++ "_label"`), the returned path is the full label
path with every occurrence of `"_label"` replaced by `"_input"`.
Consequently (second conjunct): when `"_label"` occurs exactly once in that
path, the result is exactly the matched channel's value file — the suffix
swap `stem ++ "_input"` inside the same directory.  Third conjunct: when the
driver directory name itself contains `"_label"`, the returned path is NOT
the matched channel's value file. -/
theorem c10_replace_all_occurrences
    (tree : List HwmonEntry) (sensor_name label_name : List Char)
    (pre : List HwmonEntry) (e : HwmonEntry) (post : List HwmonEntry)
    (fpre : List (List Char × List Char)) (fname fcontent : List Char)
    (fpost : List (List Char × List Char)) (stem : List Char)
    (htree : tree = pre ++ e :: post)
    (hpre : ∀ e2 ∈ pre, entryMatchesB sensor_name label_name e2 = false)
    (hname : ∃ nc, e.nameContent = some nc ∧ stripChars nc = sensor_name)
    (hfiles : e.files = fpre ++ (fname, fcontent) :: fpost)
    (hfpre : ∀ fc ∈ fpre, labelMatchesB label_name fc = false)
    (hmatch : labelMatchesB label_name (fname, fcontent) = true)
    (hstem : fname = stem ++ ("_label").data) :
    find_temp_file tree sensor_name label_name =
        some (pyReplace (("_label").data) (("_input").data)
          (pathJoin (pathJoin hwmonBase e.dirname) fname)) ∧
      (occCount (("_label").data) (pathJoin (pathJoin hwmonBase e.dirname) fname) = 1 →
        find_temp_file tree sensor_name label_name =
          some (pathJoin (pathJoin hwmonBase e.dirname) (stem ++ ("_input").data))) ∧
      ((∃ x y, e.dirname = x ++ ("_label").data ++ y) →
        find_temp_file tree sensor_name label_name ≠
          some (pathJoin (pathJoin hwmonBase e.dirname) (stem ++ ("_input").data))) := by
  have hpat : (("_label").data : List Char) ≠ [] := by decide
  have hfind : find_temp_file tree sensor_name label_name =
      some (pyReplace (("_label").data) (("_input").data)
        (pathJoin (pathJoin hwmonBase e.dirname) fname)) := by
    subst htree
    rw [find_temp_file_append_of_nomatch pre _ hpre]
    exact find_temp_file_cons_of_match hname hfiles hfpre hmatch
  -- the stem of the full label path
  have hsA : pathJoin (pathJoin hwmonBase e.dirname) fname =
      (pathJoin (pathJoin hwmonBase e.dirname) stem) ++ ("_label").data := by
    simp [pathJoin, hstem, List.append_assoc]
  have hvalue : (pathJoin (pathJoin hwmonBase e.dirname) stem) ++ ("_input").data =
      pathJoin (pathJoin hwmonBase e.dirname) (stem ++ ("_input").data) := by
    simp [pathJoin, List.append_assoc]
  refine ⟨hfind, ?_, ?_⟩
  · intro hone
    rw [hfind, hsA]
    have h0 : ((((pathJoin (pathJoin hwmonBase e.dirname) stem) ++ ("_label").data).drop
        (pathJoin (pathJoin hwmonBase e.dirname) stem).length).take
        (("_label").data).length) = ("_label").data := by
      rw [List.drop_left, List.take_length]
    have hmin : ∀ j < (pathJoin (pathJoin hwmonBase e.dirname) stem).length,
        ¬((((pathJoin (pathJoin hwmonBase e.dirname) stem) ++ ("_label").data).drop j).take
          (("_label").data).length = ("_label").data) := by
      intro j hj hcon
      rw [hsA] at hone
      have := occCount_eq_one_unique hpat hone hcon h0
      omega
    rw [pyReplace_suffix_swap _ _ hpat _ hmin, hvalue]
  · intro hdir hEq
    obtain ⟨x, y, hxy⟩ := hdir
    rw [hfind, hsA] at hEq
    have hinj := Option.some.inj hEq
    rw [← hvalue] at hinj
    -- an occurrence of "_label" inside the directory part of the stem
    have hsB : (pathJoin (pathJoin hwmonBase e.dirname) stem) ++ ("_label").data =
        (hwmonBase ++ ("/").data ++ x) ++ (("_label").data ++
          (y ++ (("/").data ++ (stem ++ ("_label").data)))) := by
      simp [pathJoin, hxy, List.append_assoc]
    have hocc1 : ((((pathJoin (pathJoin hwmonBase e.dirname) stem) ++ ("_label").data).drop
        (hwmonBase ++ ("/").data ++ x).length).take (("_label").data).length) =
        ("_label").data := by
      rw [hsB, List.drop_left, List.take_left]
    have hbound : (hwmonBase ++ ("/").data ++ x).length + (("_label").data).length ≤
        (pathJoin (pathJoin hwmonBase e.dirname) stem).length := by
      simp [pathJoin, hxy, List.length_append]
      omega
    exact pyReplace_ne_plain_swap (("_label").data) (("_input").data) hpat
      (by decide) (by decide) _ _ hocc1 hbound hinj

/-- Witness for C6: on `demoTree`, resolving `(asusec, CPU)` skips the
non-matching driver and the non-matching label and returns
`/sys/class/hwmon/hwmon1/temp2_input`; resolving the absent kind `nope`
returns `None`. -/
theorem c6_witness :
    (entryMatchesB (("asusec").data) (("CPU").data) demoEntryOther = false ∧
      labelMatchesB (("CPU").data) ((("temp2_label").data, ("CPU\n").data)) = true ∧
      (∀ e ∈ demoTree, entryMatchesB (("nope").data) (("CPU").data) e = false)) ∧
      find_temp_file demoTree (("asusec").data) (("CPU").data) =
        some (("/sys/class/hwmon/hwmon1/temp2_input").data) ∧
      find_temp_file demoTree (("nope").data) (("CPU").data) = none := by
  refine ⟨⟨by decide, by decide, by decide⟩, ?_, ?_⟩
  · have h := (c6_resolver demoTree (("asusec").data) (("CPU").data)).2
      [demoEntryOther] demoEntryAsus []
      [(("name").data, ("asusec\n").data), (("temp1_label").data, ("Motherboard\n").data)]
      (("temp2_label").data) (("CPU\n").data) []
      rfl (by decide) ⟨("asusec\n").data, rfl, by decide⟩ rfl (by decide) (by decide)
    rw [h]
    decide
  · exact (c6_resolver demoTree (("nope").data) (("CPU").data)).1 (by decide)

/-- Witness for C10: on `demoTree` (where `"_label"` occurs exactly once in
the matched path) the result is the channel's value file, while on
`demoTreeWeird` (directory name `hwmon_label0`) the result is not the
channel's value file `/sys/class/hwmon/hwmon_label0/temp2_input` — it is the
mangled `/sys/class/hwmon/hwmon_input0/temp2_input`. -/
theorem c10_witness :
    (occCount (("_label").data)
        (pathJoin (pathJoin hwmonBase (("hwmon1").data)) (("temp2_label").data)) = 1 ∧
      demoEntryWeird.dirname = ("hwmon").data ++ ("_label").data ++ ("0").data) ∧
      find_temp_file demoTree (("asusec").data) (("CPU").data) =
        some (pathJoin (pathJoin hwmonBase (("hwmon1").data))
          (("temp2").data ++ ("_input").data)) ∧
      find_temp_file demoTreeWeird (("asusec").data) (("CPU").data) ≠
        some (pathJoin (pathJoin hwmonBase (("hwmon_label0").data))
          (("temp2").data ++ ("_input").data)) ∧
      find_temp_file demoTreeWeird (("asusec").data) (("CPU").data) =
        some (("/sys/class/hwmon/hwmon_input0/temp2_input").data) := by
  refine ⟨⟨by decide, by decide⟩, ?_, ?_, ?_⟩
  · exact (c10_replace_all_occurrences demoTree (("asusec").data) (("CPU").data)
      [demoEntryOther] demoEntryAsus []
      [(("name").data, ("asusec\n").data), (("temp1_label").data, ("Motherboard\n").data)]
      (("temp2_label").data) (("CPU\n").data) [] (("temp2").data)
      rfl (by decide) ⟨("asusec\n").data, rfl, by decide⟩ rfl (by decide) (by decide)
      (by decide)).2.1 (by decide)
  · exact (c10_replace_all_occurrences demoTreeWeird (("asusec").data) (("CPU").data)
      [] demoEntryWeird [] [] (("temp2_label").data) (("CPU\n").data) [] (("temp2").data)
      rfl (by simp) ⟨("asusec\n").data, rfl, by decide⟩ rfl (by simp) (by decide)
      (by decide)).2.2 ⟨("hwmon").data, ("0").data, by decide⟩
  · have h := (c10_replace_all_occurrences demoTreeWeird (("asusec").data) (("CPU").data)
      [] demoEntryWeird [] [] (("temp2_label").data) (("CPU\n").data) [] (("temp2").data)
      rfl (by simp) ⟨("asusec\n").data, rfl, by decide⟩ rfl (by simp) (by decide)
      (by decide)).1
    rw [h]
    decide

/-- C7 (code bug): release does NOT happen on every exit path.  On the
endpoint-missing branch the function returns after acquiring the device
without calling `dispose_resources` (the same holds for exceptions raised
between acquisition and the write), even though it does dispose on the
write-failure and success paths. -/
theorem c7_endpoint_missing_skips_dispose (payload : List Nat) :
    (send_to_device envEndpointMissing payload).acquired = true ∧
      (send_to_device envEndpointMissing payload).disposed = false ∧
      (send_to_device envWriteFails payload).disposed = true ∧
      (send_to_device envClean payload).disposed = true :=
  ⟨rfl, rfl, rfl, rfl⟩

theorem send_to_device_ok_of_clean (env : UsbEnv) (payload : List Nat)
    (h : cleanUsb env = true) :
    send_to_device env payload = ⟨SendResult.ok, true, true⟩ := by
  simp only [cleanUsb, Bool.and_eq_true, Bool.not_eq_true'] at h
  obtain ⟨⟨⟨⟨⟨h1, h2⟩, h3⟩, h4⟩, h5⟩, h6⟩ := h
  simp [send_to_device, h1, h2, h3, h4, h5, h6]

theorem runCycle_cpu_temp (pyfloat : List Char → Option ℚ) (cpu_path gpu_path : List Char)
    (env : CycleEnv) (c : Nat) :
    (runCycle pyfloat cpu_path gpu_path env c).cpu_temp =
      (read_temperature pyfloat env.fs cpu_path).1 := by
  unfold runCycle
  dsimp only
  cases generate_payload (read_temperature pyfloat env.fs cpu_path).1
    (read_temperature pyfloat env.fs gpu_path).1 <;> rfl

theorem runCycle_gpu_temp (pyfloat : List Char → Option ℚ) (cpu_path gpu_path : List Char)
    (env : CycleEnv) (c : Nat) :
    (runCycle pyfloat cpu_path gpu_path env c).gpu_temp =
      (read_temperature pyfloat env.fs gpu_path).1 := by
  unfold runCycle
  dsimp only
  cases generate_payload (read_temperature pyfloat env.fs cpu_path).1
    (read_temperature pyfloat env.fs gpu_path).1 <;> rfl

theorem runCycle_send_of_payload (pyfloat : List Char → Option ℚ)
    (cpu_path gpu_path : List Char) (env : CycleEnv) (c : Nat) (pl : List Nat)
    (h : generate_payload (read_temperature pyfloat env.fs cpu_path).1
      (read_temperature pyfloat env.fs gpu_path).1 = some pl) :
    (runCycle pyfloat cpu_path gpu_path env c).send =
      some (send_to_device env.usb pl) := by
  unfold runCycle
  dsimp only
  rw [h]

theorem runCycle_nextCount_of_payload (pyfloat : List Char → Option ℚ)
    (cpu_path gpu_path : List Char) (env : CycleEnv) (c : Nat) (pl : List Nat)
    (h : generate_payload (read_temperature pyfloat env.fs cpu_path).1
      (read_temperature pyfloat env.fs gpu_path).1 = some pl) :
    (runCycle pyfloat cpu_path gpu_path env c).nextCount = c + 1 := by
  unfold runCycle
  dsimp only
  rw [h]

/-- C9 (amended): a transport fault on cycle N keeps the loop in Running — the
faulted cycle completes normally (`send_to_device` swallows the fault, so the
counter still increments) — and does not affect cycle N+1, which performs
both reads again and, whenever the encoder accepts its readings, a fresh send
attempt that succeeds if the cycle-N+1 device environment is fault-free.
(If cycle N+1's readings make `generate_payload` raise — e.g. a negative
reading — no send is attempted on that cycle; see the counterexample.) -/
theorem c9_loop_resilience (pyfloat : List Char → Option ℚ)
    (cpu_path gpu_path : List Char) (envs : Nat → CycleEnv) (N : Nat) (o : SendOutcome)
    (hsend : (runCycle pyfloat cpu_path gpu_path (envs N)
      (countAt pyfloat cpu_path gpu_path envs N)).send = some o)
    (hfault : isTransportFault o.result = true) :
    countAt pyfloat cpu_path gpu_path envs (N + 1) =
        countAt pyfloat cpu_path gpu_path envs N + 1 ∧
      (runCycle pyfloat cpu_path gpu_path (envs (N + 1))
          (countAt pyfloat cpu_path gpu_path envs (N + 1))).cpu_temp =
        (read_temperature pyfloat (envs (N + 1)).fs cpu_path).1 ∧
      (runCycle pyfloat cpu_path gpu_path (envs (N + 1))
          (countAt pyfloat cpu_path gpu_path envs (N + 1))).gpu_temp =
        (read_temperature pyfloat (envs (N + 1)).fs gpu_path).1 ∧
      ∀ pl, generate_payload (read_temperature pyfloat (envs (N + 1)).fs cpu_path).1
          (read_temperature pyfloat (envs (N + 1)).fs gpu_path).1 = some pl →
        (runCycle pyfloat cpu_path gpu_path (envs (N + 1))
            (countAt pyfloat cpu_path gpu_path envs (N + 1))).send =
          some (send_to_device (envs (N + 1)).usb pl) ∧
        (cleanUsb (envs (N + 1)).usb = true →
          (send_to_device (envs (N + 1)).usb pl).result = SendResult.ok) := by
  have hpl : ∃ pl, generate_payload
      (read_temperature pyfloat (envs N).fs cpu_path).1
      (read_temperature pyfloat (envs N).fs gpu_path).1 = some pl := by
    rcases hgen : generate_payload (read_temperature pyfloat (envs N).fs cpu_path).1
      (read_temperature pyfloat (envs N).fs gpu_path).1 with _ | pl
    · exfalso
      unfold runCycle at hsend
      dsimp only at hsend
      rw [hgen] at hsend
      simp at hsend
    · exact ⟨pl, rfl⟩
  obtain ⟨pl0, hpl0⟩ := hpl
  refine ⟨?_, runCycle_cpu_temp _ _ _ _ _, runCycle_gpu_temp _ _ _ _ _, ?_⟩
  · show (runCycle pyfloat cpu_path gpu_path (envs N)
      (countAt pyfloat cpu_path gpu_path envs N)).nextCount = _
    exact runCycle_nextCount_of_payload _ _ _ _ _ pl0 hpl0
  · intro pl hgen
    exact ⟨runCycle_send_of_payload _ _ _ _ _ pl hgen,
      fun hclean => by rw [send_to_device_ok_of_clean _ pl hclean]⟩

/-- C9 counterexample: cycle 0 sends and suffers a transport fault
(write failure); on cycle 1 the cpu sensor reports -5.0 °C, so
`generate_payload` raises and the loop performs NO send attempt on cycle N+1
— contrary to the claim's unconditional "still performs ... a fresh send
attempt", even though the device is fault-free on cycle 1. -/
theorem c9_counterexample :
    (runCycle demoLoopFloat (("c").data) (("g").data) (demoEnvsBad 0)
        (countAt demoLoopFloat (("c").data) (("g").data) demoEnvsBad 0)).send =
      some ⟨SendResult.writeFailed, true, true⟩ ∧
      isTransportFault SendResult.writeFailed = true ∧
      cleanUsb (demoEnvsBad 1).usb = true ∧
      (runCycle demoLoopFloat (("c").data) (("g").data) (demoEnvsBad 1)
        (countAt demoLoopFloat (("c").data) (("g").data) demoEnvsBad 1)).send = none :=
  ⟨by with_unfolding_all decide, by decide, by decide, by with_unfolding_all decide⟩

/-- Witness for C9 at cycle 0 of the well-behaved environment. -/
theorem c9_witness :
    ((runCycle demoLoopFloat (("c").data) (("g").data) (demoEnvsGood 0)
        (countAt demoLoopFloat (("c").data) (("g").data) demoEnvsGood 0)).send =
          some ⟨SendResult.writeFailed, true, true⟩ ∧
      isTransportFault SendResult.writeFailed = true) ∧
      (countAt demoLoopFloat (("c").data) (("g").data) demoEnvsGood 1 =
          countAt demoLoopFloat (("c").data) (("g").data) demoEnvsGood 0 + 1 ∧
        (runCycle demoLoopFloat (("c").data) (("g").data) (demoEnvsGood 1)
            (countAt demoLoopFloat (("c").data) (("g").data) demoEnvsGood 1)).cpu_temp =
          (read_temperature demoLoopFloat (demoEnvsGood 1).fs (("c").data)).1 ∧
        (runCycle demoLoopFloat (("c").data) (("g").data) (demoEnvsGood 1)
            (countAt demoLoopFloat (("c").data) (("g").data) demoEnvsGood 1)).gpu_temp =
          (read_temperature demoLoopFloat (demoEnvsGood 1).fs (("g").data)).1 ∧
        ∀ pl, generate_payload
            (read_temperature demoLoopFloat (demoEnvsGood 1).fs (("c").data)).1
            (read_temperature demoLoopFloat (demoEnvsGood 1).fs (("g").data)).1 = some pl →
          (runCycle demoLoopFloat (("c").data) (("g").data) (demoEnvsGood 1)
              (countAt demoLoopFloat (("c").data) (("g").data) demoEnvsGood 1)).send =
            some (send_to_device (demoEnvsGood 1).usb pl) ∧
          (cleanUsb (demoEnvsGood 1).usb = true →
            (send_to_device (demoEnvsGood 1).usb pl).result = SendResult.ok)) :=
  ⟨⟨by with_unfolding_all decide, by decide⟩,
    c9_loop_resilience demoLoopFloat (("c").data) (("g").data) demoEnvsGood 0
      ⟨SendResult.writeFailed, true, true⟩ (by with_unfolding_all decide) (by decide)⟩

/-- C8 (amended): whenever the listing completes, every driver whose `name`
file reads successfully contributes an entry, and within it every channel
whose label read succeeds and whose value file is missing appears with the
"unavailable" marker, while every channel whose label and value reads succeed
and whose value parses appears with its reading divided by 1000 — regardless
of read or parse errors on OTHER channels of the same or other drivers
(those channels are skipped, with an error report, rather than aborting the
listing; a skipped channel gets no entry at all, not an "unavailable" one). -/
theorem c8_listing_resilient (pyfloat : List Char → Option ℚ) (tree : List SensorDir)
    (infos : List SensorInfo)
    (h : list_hwmon_sensors pyfloat tree = Except.ok infos) :
    ∀ d ∈ tree, ∀ nc,
      d.read (pathJoin (pathJoin hwmonBase d.dirname) (("name").data)) =
        ReadOutcome.ok nc →
      ∃ info ∈ infos, info.path = pathJoin hwmonBase d.dirname ∧
        info.name = stripChars nc ∧
        ∀ f ∈ d.files, isTempLabel f = true →
          ∀ lc, d.read (pathJoin (pathJoin hwmonBase d.dirname) f) = ReadOutcome.ok lc →
            (d.read (pyReplace (("_label").data) (("_input").data)
                (pathJoin (pathJoin hwmonBase d.dirname) f)) = ReadOutcome.absent →
              (pyReplace (("_label").data) [] f, stripChars lc, (none : Option ℚ)) ∈
                info.labels) ∧
            (∀ ic v, d.read (pyReplace (("_label").data) (("_input").data)
                (pathJoin (pathJoin hwmonBase d.dirname) f)) = ReadOutcome.ok ic →
              pyfloat (stripChars ic) = some v →
              (pyReplace (("_label").data) [] f, stripChars lc, some (v / 1000)) ∈
                info.labels) := by
  induction tree generalizing infos with
  | nil => intro d hd; simp at hd
  | cons d0 rest ih =>
    intro d hd nc hnc
    cases hname0 : d0.read (pathJoin (pathJoin hwmonBase d0.dirname) (("name").data)) with
    | absent =>
      simp only [list_hwmon_sensors, hname0] at h
      rcases List.mem_cons.mp hd with rfl | hd2
      · rw [hname0] at hnc; cases hnc
      · exact ih infos h d hd2 nc hnc
    | raises =>
      simp only [list_hwmon_sensors, hname0] at h
      cases h
    | ok nc0 =>
      simp only [list_hwmon_sensors, hname0] at h
      rcases hrest : list_hwmon_sensors pyfloat rest with e | others
      · rw [hrest] at h; cases h
      · rw [hrest] at h
        simp only [Except.ok.injEq] at h
        rcases List.mem_cons.mp hd with rfl | hd2
        · rw [hname0] at hnc
          injection hnc with hnceq
          refine ⟨_, by rw [← h]; exact List.mem_cons_self _ _, rfl, by rw [hnceq], ?_⟩
          intro f hf htl lc hlc
          constructor
          · intro hinput
            refine List.mem_filterMap.mpr ⟨f, hf, ?_⟩
            simp only [if_pos htl, hlc, hinput]
          · intro ic v hic hv
            refine List.mem_filterMap.mpr ⟨f, hf, ?_⟩
            simp only [if_pos htl, hlc, hic, hv]
        · obtain ⟨info, hmem, hrest2⟩ := ih others hrest d hd2 nc hnc
          exact ⟨info, by rw [← h]; exact List.mem_cons_of_mem _ hmem, hrest2⟩

/-- C8 counterexample: channel `temp1` of `demoDirBad` is discovered (its
label file exists and reads as `CPU`) and its value file exists but fails to
parse; the listing then contains NO entry for `temp1` — neither a reading nor
the "unavailable" marker — while the claim promises an entry for each
discovered channel.  The rest of the listing (channel `temp2`) survives. -/
theorem c8_counterexample :
    demoDirBad.read
        (pathJoin (pathJoin hwmonBase demoDirBad.dirname) (("temp1_label").data)) =
      ReadOutcome.ok (("CPU\n").data) ∧
      isTempLabel (("temp1_label").data) = true ∧
      demoDirBad.read
          (pyReplace (("_label").data) (("_input").data)
            (pathJoin (pathJoin hwmonBase demoDirBad.dirname) (("temp1_label").data))) =
        ReadOutcome.ok (("garbage").data) ∧
      demoLoopFloat (stripChars (("garbage").data)) = none ∧
      list_hwmon_sensors demoLoopFloat [demoDirBad] =
        Except.ok [⟨("/sys/class/hwmon/hwmon0").data, ("asusec").data,
          [(("temp2").data, ("GPU").data, some 30)]⟩] :=
  ⟨by decide, by decide, by decide, by decide, by with_unfolding_all decide⟩

/-- Witness for C8 on `demoDirMix`: the healthy channel appears with its
reading, the channel with a missing value file appears with the
"unavailable" marker, and the channel whose label read raises does not abort
the listing. -/
theorem c8_witness :
    (list_hwmon_sensors demoListFloat [demoDirMix] = Except.ok [demoInfoMix] ∧
      demoDirMix.read
          (pathJoin (pathJoin hwmonBase demoDirMix.dirname) (("temp3_label").data)) =
        ReadOutcome.raises) ∧
      (pyReplace (("_label").data) [] (("temp1_label").data), stripChars (("CPU\n").data),
        some ((41000 : ℚ) / 1000)) ∈ demoInfoMix.labels ∧
      (pyReplace (("_label").data) [] (("temp2_label").data), stripChars (("GPU\n").data),
        (none : Option ℚ)) ∈ demoInfoMix.labels := by
  refine ⟨⟨by with_unfolding_all decide, by decide⟩, ?_, ?_⟩
  all_goals
    obtain ⟨info, hmem, hpath, hname, hch⟩ :=
      c8_listing_resilient demoListFloat [demoDirMix] [demoInfoMix]
        (by with_unfolding_all decide) demoDirMix (by simp) (("asusec\n").data) (by decide)
  · have hinfo : info = demoInfoMix := by simpa using hmem
    subst hinfo
    exact (hch (("temp1_label").data) (by decide) (by decide) (("CPU\n").data)
      (by decide)).2 (("41000").data) 41000 (by decide) (by decide)
  · have hinfo : info = demoInfoMix := by simpa using hmem
    subst hinfo
    exact (hch (("temp2_label").data) (by decide) (by decide) (("GPU\n").data)
      (by decide)).1 (by decide)

end Antec
